import Mathlib

/-!
Verification of the CPython extension wrapper in
`src/nbody/_nbody_c/nbody_wrapper.c`.

The file defines a shallow embedding of the C function
`run_nbody_simulation`.  The operating-system facilities it touches
(argument parsing via PyArg_ParseTuple, getcwd, chdir) and the external
`main` of the wrapped program are modelled by an explicit environment
record; the function itself is translated statement by statement.  The
observable outcome of one call records the Python-level result, the final
process working directory, the list of invocations of the external main
(with argc, argv and the working directory in force at the invocation;
the terminating NULL sentinel of the C argv array is left implicit), and
the lines written to standard output.
-/

namespace NBodyWrapper

/-- One invocation of the external `main`: the argc value, the argv
strings (without the trailing NULL sentinel), and the process working
directory in force when `main` is entered. -/
structure MainCall where
  argc : Nat
  argv : List String
  cwd : String
deriving DecidableEq, Repr

/-- Result of the CPython-level call: `ok v` models returning
`PyLong_FromLong(v)`, and `err msg` models returning NULL with an
OSError (or the argument-parsing exception) pending, carrying the
message given to PyErr_SetString. -/
inductive PyResult where
  | ok (v : Int)
  | err (msg : String)
deriving DecidableEq, Repr

/-- Everything one call of `run_nbody_simulation` can observe or effect. -/
structure CallOutcome where
  result : PyResult
  finalCwd : String
  mainCalls : List MainCall
  printed : List String
deriving DecidableEq, Repr

/-- The ambient environment of one call: the outcome of
`PyArg_ParseTuple(args, "ss", ...)` (the two parsed strings, or `none`
on parse failure), whether `getcwd` succeeds, which `chdir` targets
succeed, and the external `main` of the wrapped program, modelled as a
fixed function of argc, argv and the working directory at entry. -/
structure Env where
  parse : Option (String × String)
  getcwdOk : Bool
  chdirOk : String → Bool
  extMain : Nat → List String → String → Int

/-- Shallow embedding of `run_nbody_simulation` from
`src/nbody/_nbody_c/nbody_wrapper.c`, lines 10-52.  `cwd0` is the
process working directory at entry.  The translation follows the C
statement order: parse the two string arguments, print the three banner
lines, save the current directory with getcwd, chdir to the output
directory, build `argv_sim = ("nbody_comp", input_file_path, NULL)` with
`argc_sim = 2`, call the external main, attempt to chdir back (printing
a warning on failure, without raising), print the completion line, and
return the integer main returned. -/
def run_nbody_simulation (env : Env) (cwd0 : String) : CallOutcome :=
  match env.parse with
  | none =>
      { result := PyResult.err "argument parsing failed",
        finalCwd := cwd0, mainCalls := [], printed := [] }
  | some (input_file_path, output_dir_path) =>
      let banner := ["N-body simulation starting...",
                     "Input file: " ++ input_file_path,
                     "Output directory: " ++ output_dir_path]
      if env.getcwdOk = false then
        { result := PyResult.err "Cannot get current directory",
          finalCwd := cwd0, mainCalls := [], printed := banner }
      else
        let original_dir := cwd0
        if env.chdirOk output_dir_path = false then
          { result := PyResult.err "Cannot change to output directory",
            finalCwd := cwd0, mainCalls := [], printed := banner }
        else
          let argv_sim := ["nbody_comp", input_file_path]
          let argc_sim := 2
          let result := env.extMain argc_sim argv_sim output_dir_path
          let restored := env.chdirOk original_dir
          { result := PyResult.ok result,
            finalCwd := if restored then original_dir else output_dir_path,
            mainCalls := [⟨argc_sim, argv_sim, output_dir_path⟩],
            printed := banner
              ++ (if restored then []
                  else ["Warning: Could not restore original directory"])
              ++ ["N-body simulation completed with return code: "
                  ++ toString result] }

/-- A fully successful environment: parses to ("config.txt", "/outdir"),
getcwd succeeds, every chdir succeeds, and the external main returns 7. -/
def envOk : Env :=
  { parse := some ("config.txt", "/outdir"),
    getcwdOk := true,
    chdirOk := fun _ => true,
    extMain := fun _ _ _ => 7 }

/-- Environment in which only the chdir to "/out" succeeds, so the
restoring chdir back to the saved directory fails. -/
def envRestoreFail : Env :=
  { parse := some ("in.txt", "/out"),
    getcwdOk := true,
    chdirOk := fun p => p == "/out",
    extMain := fun _ _ _ => 0 }

/-- Environment in which PyArg_ParseTuple fails. -/
def envParseFail : Env :=
  { parse := none,
    getcwdOk := true,
    chdirOk := fun _ => true,
    extMain := fun _ _ _ => 0 }

/-- Environment in which getcwd fails. -/
def envGetcwdFail : Env :=
  { parse := some ("in.txt", "/out"),
    getcwdOk := false,
    chdirOk := fun _ => true,
    extMain := fun _ _ _ => 0 }

/-- Environment in which every chdir fails. -/
def envChdirFail : Env :=
  { parse := some ("in.txt", "/out"),
    getcwdOk := true,
    chdirOk := fun _ => false,
    extMain := fun _ _ _ => 0 }

/-- C1: for every call of run_nbody_simulation in which the two string
arguments parse and both the getcwd save of the current directory and
the chdir to the output directory succeed, the wrapper invokes the
external main exactly once and returns, as the Python integer result,
exactly the value main returned, unchanged. -/
theorem run_forwards_main_result (env : Env) (cwd0 i o : String)
    (hp : env.parse = some (i, o)) (hg : env.getcwdOk = true)
    (hc : env.chdirOk o = true) :
    (run_nbody_simulation env cwd0).mainCalls.length = 1 ∧
    (run_nbody_simulation env cwd0).result
      = PyResult.ok (env.extMain 2 ["nbody_comp", i] o) := by
  simp [run_nbody_simulation, hp, hg, hc]

/-- Witness for C1 at a concrete successful environment. -/
theorem run_forwards_main_result_witness :
    (run_nbody_simulation envOk "/home").mainCalls.length = 1 ∧
    (run_nbody_simulation envOk "/home").result
      = PyResult.ok (envOk.extMain 2 ["nbody_comp", "config.txt"] "/outdir") :=
  run_forwards_main_result envOk "/home" "config.txt" "/outdir" rfl rfl rfl

/-- C2 counterexample: in an environment in which the chdir back to the
saved directory fails, the external main is invoked and yet the final
working directory differs from the one at entry, so the claim that the
working directory is restored on every call that invokes main is false
as stated. -/
theorem run_restore_fail_cex :
    (run_nbody_simulation envRestoreFail "/home").mainCalls ≠ [] ∧
    (run_nbody_simulation envRestoreFail "/home").finalCwd ≠ "/home" := by
  decide

/-- C2 amended: on every call that invokes the external main, provided
the chdir back to the saved directory also succeeds, the process working
directory at return equals the one at entry. -/
theorem run_restores_cwd (env : Env) (cwd0 i o : String)
    (hp : env.parse = some (i, o)) (hg : env.getcwdOk = true)
    (hco : env.chdirOk o = true) (hcr : env.chdirOk cwd0 = true) :
    (run_nbody_simulation env cwd0).mainCalls ≠ [] ∧
    (run_nbody_simulation env cwd0).finalCwd = cwd0 := by
  simp [run_nbody_simulation, hp, hg, hco, hcr]

/-- Witness for the amended C2 at a concrete environment. -/
theorem run_restores_cwd_witness :
    (run_nbody_simulation envOk "/home").mainCalls ≠ [] ∧
    (run_nbody_simulation envOk "/home").finalCwd = "/home" :=
  run_restores_cwd envOk "/home" "config.txt" "/outdir" rfl rfl rfl rfl

/-- C3 counterexample: at a concrete successful call the external entry
point is invoked exactly once, and the output-directory string is not
among the arguments passed to it, so the claim that both paths are
passed as arguments to the invoked entry point is false. -/
theorem run_outdir_not_passed_cex :
    (run_nbody_simulation envOk "/home").mainCalls.length = 1 ∧
    ∀ c ∈ (run_nbody_simulation envOk "/home").mainCalls,
      "/outdir" ∉ c.argv := by
  decide

/-- C3 amended: the wrapper invokes the wrapped program through its
C-level entry point main, passing the configuration/input file path as
the sole real argument (after the fixed program name) and receiving the
status code as the return value of main; the output directory path is
not passed as an argument but is installed as the working directory in
force at the invocation. -/
theorem run_entry_point_contract (env : Env) (cwd0 i o : String)
    (hp : env.parse = some (i, o)) (hg : env.getcwdOk = true)
    (hc : env.chdirOk o = true) :
    (run_nbody_simulation env cwd0).mainCalls = [⟨2, ["nbody_comp", i], o⟩] ∧
    (run_nbody_simulation env cwd0).result
      = PyResult.ok (env.extMain 2 ["nbody_comp", i] o) := by
  simp [run_nbody_simulation, hp, hg, hc]

/-- Witness for the amended C3 at a concrete environment. -/
theorem run_entry_point_contract_witness :
    (run_nbody_simulation envOk "/home").mainCalls
      = [⟨2, ["nbody_comp", "config.txt"], "/outdir"⟩] ∧
    (run_nbody_simulation envOk "/home").result
      = PyResult.ok (envOk.extMain 2 ["nbody_comp", "config.txt"] "/outdir") :=
  run_entry_point_contract envOk "/home" "config.txt" "/outdir" rfl rfl rfl

/-- C4: when the chdir to the output directory fails, the call fails
with the OSError message of that branch, the external main is never
invoked, and the working directory is unchanged. -/
theorem run_chdir_fail (env : Env) (cwd0 i o : String)
    (hp : env.parse = some (i, o)) (hg : env.getcwdOk = true)
    (hc : env.chdirOk o = false) :
    (run_nbody_simulation env cwd0).result
      = PyResult.err "Cannot change to output directory" ∧
    (run_nbody_simulation env cwd0).mainCalls = [] ∧
    (run_nbody_simulation env cwd0).finalCwd = cwd0 := by
  simp [run_nbody_simulation, hp, hg, hc]

/-- Witness for C4 at a concrete environment with failing chdir. -/
theorem run_chdir_fail_witness :
    (run_nbody_simulation envChdirFail "/home").result
      = PyResult.err "Cannot change to output directory" ∧
    (run_nbody_simulation envChdirFail "/home").mainCalls = [] ∧
    (run_nbody_simulation envChdirFail "/home").finalCwd = "/home" :=
  run_chdir_fail envChdirFail "/home" "in.txt" "/out" rfl rfl rfl

/-- C5: when the arguments cannot be parsed as exactly two strings, the
call fails with the parse exception pending before any side effect: the
working directory is unchanged, the external main is not invoked, and
nothing is printed. -/
theorem run_parse_fail (env : Env) (cwd0 : String)
    (hp : env.parse = none) :
    (run_nbody_simulation env cwd0).result
      = PyResult.err "argument parsing failed" ∧
    (run_nbody_simulation env cwd0).finalCwd = cwd0 ∧
    (run_nbody_simulation env cwd0).mainCalls = [] ∧
    (run_nbody_simulation env cwd0).printed = [] := by
  simp [run_nbody_simulation, hp]

/-- Witness for C5 at a concrete environment with failing parse. -/
theorem run_parse_fail_witness :
    (run_nbody_simulation envParseFail "/home").result
      = PyResult.err "argument parsing failed" ∧
    (run_nbody_simulation envParseFail "/home").finalCwd = "/home" ∧
    (run_nbody_simulation envParseFail "/home").mainCalls = [] ∧
    (run_nbody_simulation envParseFail "/home").printed = [] :=
  run_parse_fail envParseFail "/home" rfl

/-- C6: with the external main modelled as a fixed function of its
arguments and of the working directory at its invocation,
run_nbody_simulation is deterministic: two calls whose environments
agree on the parsed argument strings, the getcwd and chdir outcomes and
the external main, starting from the same working directory, return
equal results. -/
theorem run_deterministic (e₁ e₂ : Env) (cwd0 : String)
    (hp : e₁.parse = e₂.parse) (hg : e₁.getcwdOk = e₂.getcwdOk)
    (hc : e₁.chdirOk = e₂.chdirOk) (hm : e₁.extMain = e₂.extMain) :
    (run_nbody_simulation e₁ cwd0).result
      = (run_nbody_simulation e₂ cwd0).result := by
  cases e₁
  cases e₂
  cases hp
  cases hg
  cases hc
  cases hm
  rfl

/-- Witness for C6 at a concrete environment. -/
theorem run_deterministic_witness :
    (run_nbody_simulation envOk "/home").result
      = (run_nbody_simulation envOk "/home").result :=
  run_deterministic envOk envOk "/home" rfl rfl rfl rfl

/-- C7: when getcwd fails, the call fails with the OSError message of
that branch without changing the working directory and without invoking
the external main. -/
theorem run_getcwd_fail (env : Env) (cwd0 i o : String)
    (hp : env.parse = some (i, o)) (hg : env.getcwdOk = false) :
    (run_nbody_simulation env cwd0).result
      = PyResult.err "Cannot get current directory" ∧
    (run_nbody_simulation env cwd0).mainCalls = [] ∧
    (run_nbody_simulation env cwd0).finalCwd = cwd0 := by
  simp [run_nbody_simulation, hp, hg]

/-- Witness for C7 at a concrete environment with failing getcwd. -/
theorem run_getcwd_fail_witness :
    (run_nbody_simulation envGetcwdFail "/home").result
      = PyResult.err "Cannot get current directory" ∧
    (run_nbody_simulation envGetcwdFail "/home").mainCalls = [] ∧
    (run_nbody_simulation envGetcwdFail "/home").finalCwd = "/home" :=
  run_getcwd_fail envGetcwdFail "/home" "in.txt" "/out" rfl rfl

/-- C8: a failure of the chdir that restores the original working
directory is non-fatal: the call still returns the integer main
returned, a warning line is printed, and the working directory is left
changed to the output directory. -/
theorem run_restore_fail_nonfatal (env : Env) (cwd0 i o : String)
    (hp : env.parse = some (i, o)) (hg : env.getcwdOk = true)
    (hco : env.chdirOk o = true) (hcr : env.chdirOk cwd0 = false) :
    (run_nbody_simulation env cwd0).result
      = PyResult.ok (env.extMain 2 ["nbody_comp", i] o) ∧
    (run_nbody_simulation env cwd0).finalCwd = o ∧
    "Warning: Could not restore original directory"
      ∈ (run_nbody_simulation env cwd0).printed := by
  simp [run_nbody_simulation, hp, hg, hco, hcr]

/-- Witness for C8 at a concrete environment whose restoring chdir
fails. -/
theorem run_restore_fail_nonfatal_witness :
    (run_nbody_simulation envRestoreFail "/home").result
      = PyResult.ok (envRestoreFail.extMain 2 ["nbody_comp", "in.txt"] "/out") ∧
    (run_nbody_simulation envRestoreFail "/home").finalCwd = "/out" ∧
    "Warning: Could not restore original directory"
      ∈ (run_nbody_simulation envRestoreFail "/home").printed :=
  run_restore_fail_nonfatal envRestoreFail "/home" "in.txt" "/out"
    rfl rfl (by decide) (by decide)

/-- C9: every invocation of the external main performed by
run_nbody_simulation has argc 2 and argv consisting of the fixed program
name and the parsed input file path (plus the implicit NULL sentinel),
with the output directory in force as the working directory at the
invocation; the output-directory string appears nowhere in the argv
construction. -/
theorem run_main_call_shape (env : Env) (cwd0 : String) (c : MainCall)
    (hmem : c ∈ (run_nbody_simulation env cwd0).mainCalls) :
    ∃ i o, env.parse = some (i, o) ∧ c = ⟨2, ["nbody_comp", i], o⟩ := by
  rcases hpe : env.parse with _ | ⟨i, o⟩
  · simp [run_nbody_simulation, hpe] at hmem
  · refine ⟨i, o, rfl, ?_⟩
    by_cases hg : env.getcwdOk = false
    · simp [run_nbody_simulation, hpe, hg] at hmem
    · by_cases hc : env.chdirOk o = false
      · simp [run_nbody_simulation, hpe, hg, hc] at hmem
      · simp [run_nbody_simulation, hpe, hg, hc] at hmem
        exact hmem

/-- Witness for C9 at a concrete environment and the one invocation it
performs. -/
theorem run_main_call_shape_witness :
    ∃ i o, envOk.parse = some (i, o) ∧
      (⟨2, ["nbody_comp", "config.txt"], "/outdir"⟩ : MainCall)
        = ⟨2, ["nbody_comp", i], o⟩ :=
  run_main_call_shape envOk "/home"
    ⟨2, ["nbody_comp", "config.txt"], "/outdir"⟩ (by decide)

end NBodyWrapper
